import Mathlib

set_option maxRecDepth 100000

/-! Formal model of the NE (New Executable) parser in lib/nefile.py.
Byte buffers are lists of natural numbers below 256.  Python slicing
clamps out-of-range bounds, which pySlice reproduces; struct.unpack
demands that the supplied slice has exactly the size of its format and
raises struct.error otherwise, which the parsers below reproduce with
explicit length conditions on the slices they consume.  The generic
Structure decoder used by NE.__unpack_data__ lives in structure.py,
which is not among the sources; its field decoding is modelled from the
spec, section 4.1 (fixed-width little-endian fields decoded in
declaration order at increasing offsets, an InsufficientData result when
the slice is shorter than the layout). -/

/-- Python byte string: a list of byte values. -/
abbrev Bytes := List Nat

/-- Byte at index i of a buffer, defaulting to 0.  Every read that can
influence an outcome is guarded by a length condition, so the default is
never observable. -/
def byteAt (d : Bytes) (i : Nat) : Nat := d.getD i 0

/-- Python slice d[a:b] for nonnegative indices: clamps to the buffer. -/
def pySlice (d : Bytes) (a b : Nat) : Bytes := (d.drop a).take (b - a)

/-- Modelled from the spec: the Structure decoder of structure.py
(absent from src) reads fixed-width little-endian integers; readLE d off
w is the w-byte little-endian value starting at offset off. -/
def readLE (d : Bytes) : Nat → Nat → Nat
  | _, 0 => 0
  | off, w + 1 => byteAt d off + 256 * readLE d (off + 1) w

/-- IMAGE_DOS_SIGNATURE of nefile.py: 0x5A4D. -/
def IMAGE_DOS_SIGNATURE : Nat := 0x5A4D

/-- IMAGE_NE_SIGNATURE of nefile.py: 0x454E. -/
def IMAGE_NE_SIGNATURE : Nat := 0x454E

/-- Value of NE_SEGFLAGS at the key NE_SEGFLAGS_RELOC_DATA: the flag
table ne_segment_flags of nefile.py binds that name to 0x0100 and the
NE_SEGFLAGS dictionary keeps the binding unchanged. -/
def NE_SEGFLAGS_RELOC_DATA : Nat := 0x0100

/-- Terminal outcomes of constructing NE: the four NEFormatError
messages of NE.__parse__, the struct.error of a failing struct.unpack,
the AttributeError raised when self.__data__ was never assigned or when
a None segment entry is dereferenced, and the IndexError of list
indexing in get_segment_data. -/
inductive ParseErr where
  | dosMagicNotFound
  | neSignatureNotFound
  | invalidNeSignature
  | neHeaderMissing
  | structError
  | attributeError
  | indexError
  deriving DecidableEq

/-- Fields of __IMAGE_DOS_HEADER_format__ (64 bytes). -/
structure IMAGE_DOS_HEADER where
  e_magic : Nat
  e_cblp : Nat
  e_cp : Nat
  e_crlc : Nat
  e_cparhdr : Nat
  e_minalloc : Nat
  e_maxalloc : Nat
  e_ss : Nat
  e_sp : Nat
  e_csum : Nat
  e_ip : Nat
  e_cs : Nat
  e_lfarlc : Nat
  e_ovno : Nat
  e_res : Bytes
  e_oemid : Nat
  e_oeminfo : Nat
  e_res2 : Bytes
  e_lfanew : Nat
  deriving DecidableEq

/-- Fields of __IMAGE_NE_SIG_format__ (2 bytes). -/
structure IMAGE_NE_SIG where
  Signature : Nat
  deriving DecidableEq

/-- Fields of __IMAGE_NE_HEADER_format__ (64 bytes). -/
structure IMAGE_NE_HEADER where
  Signature : Nat
  LinkerVersion : Nat
  LinkerRevision : Nat
  EntryTableOffset : Nat
  EntryTableSize : Nat
  FileLoadCRC : Nat
  ProgramFlags : Nat
  ApplicationFlags : Nat
  AutoDataSegmentIndex : Nat
  InitialLocalHeapSize : Nat
  InitialStackSize : Nat
  InitialIP : Nat
  InitialCS : Nat
  InitialSP : Nat
  InitialSS : Nat
  SegmentTableEntryCount : Nat
  ModuleTableEntryCount : Nat
  NonresidentNameTableSize : Nat
  SegmentTableOffset : Nat
  ResourceTableOffset : Nat
  ResidentNameTableOffset : Nat
  ModuleReferenceTableOffset : Nat
  ImportTableOffset : Nat
  NonResidentTableOffset : Nat
  MovableEntryPointCount : Nat
  Aligment : Nat
  ReservedSegmentCount : Nat
  TargetOS : Nat
  MiscFlags : Nat
  FastLoadOffset : Nat
  FastLoadSize : Nat
  Reserved : Nat
  WindowsRevision : Nat
  WindowsVersion : Nat
  deriving DecidableEq

/-- Fields of __IMAGE_SEGMENT_HEADER_format__ (8 bytes). -/
structure IMAGE_SEGMENT_HEADER where
  Offset : Nat
  Length : Nat
  Flags : Nat
  MinAllocSize : Nat
  deriving DecidableEq

/-- Fields of __IMAGE_RELOC_DATA_format__ (8 bytes). -/
structure IMAGE_RELOC_DATA where
  AddressType : Nat
  RelocType : Nat
  Offset : Nat
  Target1 : Nat
  Target2 : Nat
  deriving DecidableEq

/-- Modelled from the spec: NE.__unpack_data__ applied to
__IMAGE_DOS_HEADER_format__.  The Structure decode of structure.py
(absent from src) is InsufficientData (None) when the data is shorter
than the 64-byte layout, and otherwise reads each field little-endian at
its declared offset. -/
def unpackDosHeader (s : Bytes) : Option IMAGE_DOS_HEADER :=
  if s.length < 64 then none else some {
    e_magic := readLE s 0 2
    e_cblp := readLE s 2 2
    e_cp := readLE s 4 2
    e_crlc := readLE s 6 2
    e_cparhdr := readLE s 8 2
    e_minalloc := readLE s 10 2
    e_maxalloc := readLE s 12 2
    e_ss := readLE s 14 2
    e_sp := readLE s 16 2
    e_csum := readLE s 18 2
    e_ip := readLE s 20 2
    e_cs := readLE s 22 2
    e_lfarlc := readLE s 24 2
    e_ovno := readLE s 26 2
    e_res := pySlice s 28 36
    e_oemid := readLE s 36 2
    e_oeminfo := readLE s 38 2
    e_res2 := pySlice s 40 60
    e_lfanew := readLE s 60 4 }

/-- Modelled from the spec: NE.__unpack_data__ applied to
__IMAGE_NE_SIG_format__ (2 bytes). -/
def unpackNeSig (s : Bytes) : Option IMAGE_NE_SIG :=
  if s.length < 2 then none else some { Signature := readLE s 0 2 }

/-- Modelled from the spec: NE.__unpack_data__ applied to
__IMAGE_NE_HEADER_format__ (64 bytes). -/
def unpackNeHeader (s : Bytes) : Option IMAGE_NE_HEADER :=
  if s.length < 64 then none else some {
    Signature := readLE s 0 2
    LinkerVersion := readLE s 2 1
    LinkerRevision := readLE s 3 1
    EntryTableOffset := readLE s 4 2
    EntryTableSize := readLE s 6 2
    FileLoadCRC := readLE s 8 4
    ProgramFlags := readLE s 12 1
    ApplicationFlags := readLE s 13 1
    AutoDataSegmentIndex := readLE s 14 2
    InitialLocalHeapSize := readLE s 16 2
    InitialStackSize := readLE s 18 2
    InitialIP := readLE s 20 2
    InitialCS := readLE s 22 2
    InitialSP := readLE s 24 2
    InitialSS := readLE s 26 2
    SegmentTableEntryCount := readLE s 28 2
    ModuleTableEntryCount := readLE s 30 2
    NonresidentNameTableSize := readLE s 32 2
    SegmentTableOffset := readLE s 34 2
    ResourceTableOffset := readLE s 36 2
    ResidentNameTableOffset := readLE s 38 2
    ModuleReferenceTableOffset := readLE s 40 2
    ImportTableOffset := readLE s 42 2
    NonResidentTableOffset := readLE s 44 4
    MovableEntryPointCount := readLE s 48 2
    Aligment := readLE s 50 2
    ReservedSegmentCount := readLE s 52 2
    TargetOS := readLE s 54 1
    MiscFlags := readLE s 55 1
    FastLoadOffset := readLE s 56 2
    FastLoadSize := readLE s 58 2
    Reserved := readLE s 60 2
    WindowsRevision := readLE s 62 1
    WindowsVersion := readLE s 63 1 }

/-- Modelled from the spec: NE.__unpack_data__ applied to
__IMAGE_SEGMENT_HEADER_format__ (8 bytes). -/
def unpackSegmentHeader (s : Bytes) : Option IMAGE_SEGMENT_HEADER :=
  if s.length < 8 then none else some {
    Offset := readLE s 0 2
    Length := readLE s 2 2
    Flags := readLE s 4 2
    MinAllocSize := readLE s 6 2 }

/-- Modelled from the spec: NE.__unpack_data__ applied to
__IMAGE_RELOC_DATA_format__ (8 bytes). -/
def unpackRelocData (s : Bytes) : Option IMAGE_RELOC_DATA :=
  if s.length < 8 then none else some {
    AddressType := readLE s 0 1
    RelocType := readLE s 1 1
    Offset := readLE s 2 2
    Target1 := readLE s 4 2
    Target2 := readLE s 6 2 }

/-- The decoded file: the attributes NE.__parse__ assigns on the
instance, plus the retained input buffer self.__data__ that
get_segment_data re-slices on demand.  Segment table entries and
relocation records are optional because __unpack_data__ returns None
for a truncated record and the loops append the result unchecked. -/
structure NEResult where
  DOS_HEADER : IMAGE_DOS_HEADER
  NE_HEADER : IMAGE_NE_HEADER
  imported_name_table : List Bytes
  module_reference_table : List Nat
  segmentTable : List (Option IMAGE_SEGMENT_HEADER)
  relocData : List (Option (List (Option IMAGE_RELOC_DATA)))
  data : Bytes
  deriving DecidableEq

/-- The imported-name loop of NE.__parse__ (lines 150 to 156): for each
of the remaining iterations, struct.unpack of one length byte (exactly
one byte must be available), then the Pascal-string unpack of the length
byte plus that many payload bytes (the whole slice must be available),
then the cursor advances by length plus one. -/
def parseImportedNames (d : Bytes) : Nat → Nat → Except ParseErr (List Bytes × Nat)
  | off, 0 => .ok ([], off)
  | off, n + 1 =>
    if off < d.length then
      if off + 1 + byteAt d off ≤ d.length then
        match parseImportedNames d (off + byteAt d off + 1) n with
        | .ok (tbl, fin) => .ok (pySlice d (off + 1) (off + 1 + byteAt d off) :: tbl, fin)
        | .error e => .error e
      else .error .structError
    else .error .structError

/-- The canonical cursor positions of the imported-name loop: start
offset, then each step advances past one length byte and that many
payload bytes. -/
def importCursor (d : Bytes) (start : Nat) : Nat → Nat
  | 0 => start
  | j + 1 => importCursor d start j + byteAt d (importCursor d start j) + 1

/-- The module-reference-table read of NE.__parse__ (lines 158 to 160):
one struct.unpack of count little-endian 16-bit words from the slice at
the table offset; struct.error unless the slice has exactly 2 * count
bytes. -/
def parseModuleRefTable (d : Bytes) (off count : Nat) : Except ParseErr (List Nat) :=
  if (pySlice d off (off + 2 * count)).length = 2 * count then
    .ok ((List.range count).map (fun j => readLE d (off + 2 * j) 2))
  else .error .structError

/-- The segment-table loop of NE.__parse__ (lines 163 to 172): entry i
is decoded from the slice starting at the table offset plus 8 * i, and a
truncated entry is appended as None. -/
def parseSegmentTable (d : Bytes) (off count : Nat) : List (Option IMAGE_SEGMENT_HEADER) :=
  (List.range count).map (fun i => unpackSegmentHeader (d.drop (off + 8 * i)))

/-- The inner relocation loop of NE.__parse__ (lines 183 to 188): entry
i is decoded from the slice starting 2 + 8 * i past the count field, and
a truncated entry is appended as None. -/
def parseRelocTable (d : Bytes) (relocDataOffset count : Nat) : List (Option IMAGE_RELOC_DATA) :=
  (List.range count).map (fun i => unpackRelocData (d.drop (relocDataOffset + 2 + 8 * i)))

/-- The relocation loop of NE.__parse__ (lines 175 to 191): per segment
entry, dereferencing a None entry raises AttributeError; a segment whose
flags lack the RELOC_DATA bit contributes None; otherwise the 2-byte
count is struct.unpacked at the shifted segment offset plus the segment
length (struct.error unless both bytes are available) and the decoded
relocation table is appended. -/
def parseRelocData (d : Bytes) (alignment : Nat) :
    List (Option IMAGE_SEGMENT_HEADER) →
    Except ParseErr (List (Option (List (Option IMAGE_RELOC_DATA))))
  | [] => .ok []
  | none :: _ => .error .attributeError
  | some seg :: rest =>
    if seg.Flags &&& NE_SEGFLAGS_RELOC_DATA ≠ 0 then
      if (pySlice d ((seg.Offset <<< alignment) + seg.Length)
          ((seg.Offset <<< alignment) + seg.Length + 2)).length = 2 then
        (parseRelocData d alignment rest).map
          (fun tl => some (parseRelocTable d ((seg.Offset <<< alignment) + seg.Length)
            (readLE d ((seg.Offset <<< alignment) + seg.Length) 2)) :: tl)
      else .error .structError
    else
      (parseRelocData d alignment rest).map (fun tl => none :: tl)

/-- Continuation of NE.__parse__ on the module-reference-table result
(lines 158 to 191): a struct.error aborts the parse; otherwise the
segment table is decoded and the relocation loop assembles the final
instance attributes. -/
def afterModRef (d : Bytes) (dos : IMAGE_DOS_HEADER) (ne : IMAGE_NE_HEADER)
    (intbl : List Bytes) : Except ParseErr (List Nat) → Except ParseErr NEResult
  | .error e => .error e
  | .ok mrt =>
    (parseRelocData d ne.Aligment
      (parseSegmentTable d (ne.SegmentTableOffset + dos.e_lfanew)
        ne.SegmentTableEntryCount)).map
      (fun rd =>
        { DOS_HEADER := dos, NE_HEADER := ne, imported_name_table := intbl,
          module_reference_table := mrt,
          segmentTable := parseSegmentTable d (ne.SegmentTableOffset + dos.e_lfanew)
            ne.SegmentTableEntryCount,
          relocData := rd, data := d })

/-- Continuation of NE.__parse__ on the imported-name-table result
(lines 150 to 160): a struct.error aborts the parse; otherwise the
module-reference table is read at its offset relative to e_lfanew. -/
def afterImports (d : Bytes) (dos : IMAGE_DOS_HEADER) (ne : IMAGE_NE_HEADER) :
    Except ParseErr (List Bytes × Nat) → Except ParseErr NEResult
  | .error e => .error e
  | .ok (intbl, _fin) =>
    afterModRef d dos ne intbl
      (parseModuleRefTable d (ne.ModuleReferenceTableOffset + dos.e_lfanew)
        ne.ModuleTableEntryCount)

/-- Stage of NE.__parse__ after the NE header decoded (lines 149 to
191): the imported-name loop starts one byte past the import-table
offset taken relative to e_lfanew. -/
def afterNeHeader (d : Bytes) (dos : IMAGE_DOS_HEADER) (ne : IMAGE_NE_HEADER) :
    Except ParseErr NEResult :=
  afterImports d dos ne
    (parseImportedNames d (ne.ImportTableOffset + dos.e_lfanew + 1) ne.ModuleTableEntryCount)

/-- Continuation of NE.__parse__ on the NE header decode result (lines
142 to 148): NEFormatError if the header region is truncated. -/
def neHeaderStage (d : Bytes) (dos : IMAGE_DOS_HEADER) :
    Option IMAGE_NE_HEADER → Except ParseErr NEResult
  | none => .error .neHeaderMissing
  | some ne => afterNeHeader d dos ne

/-- Stage of NE.__parse__ after the NE signature validated: decode the
NE header from the slice at e_lfanew. -/
def afterNeSig (d : Bytes) (dos : IMAGE_DOS_HEADER) : Except ParseErr NEResult :=
  neHeaderStage d dos (unpackNeHeader (d.drop dos.e_lfanew))

/-- Continuation of NE.__parse__ on the NE signature decode result
(lines 131 to 140): missing or zero gives the signature-not-found
error, a wrong value the invalid-signature error. -/
def neSigStage (d : Bytes) (dos : IMAGE_DOS_HEADER) :
    Option IMAGE_NE_SIG → Except ParseErr NEResult
  | none => .error .neSignatureNotFound
  | some sig =>
    if sig.Signature = 0 then .error .neSignatureNotFound
    else if sig.Signature = IMAGE_NE_SIGNATURE then afterNeSig d dos
    else .error .invalidNeSignature

/-- Stage of NE.__parse__ after the DOS header validated (lines 129 to
140): decode the 2-byte NE signature at e_lfanew. -/
def afterDosHeader (d : Bytes) (dos : IMAGE_DOS_HEADER) : Except ParseErr NEResult :=
  neSigStage d dos (unpackNeSig (d.drop dos.e_lfanew))

/-- Continuation of NE.__parse__ on the DOS header decode result (lines
122 to 127): a missing header or a wrong magic raise the same
NEFormatError. -/
def dosStage (d : Bytes) : Option IMAGE_DOS_HEADER → Except ParseErr NEResult
  | none => .error .dosMagicNotFound
  | some dos =>
    if dos.e_magic = IMAGE_DOS_SIGNATURE then afterDosHeader d dos
    else .error .dosMagicNotFound

/-- Body of NE.__parse__ once self.__data__ holds the buffer (lines 122
to 191): DOS header decode and magic check, then the later stages. -/
def parseData (d : Bytes) : Except ParseErr NEResult :=
  dosStage d (unpackDosHeader d)

/-- NE.__parse__ called from NE.__init__ with name None (lines 108 to
124): a missing or empty data argument leaves self.__data__ unassigned
and the DOS header decode raises AttributeError. -/
def NE_parse : Option Bytes → Except ParseErr NEResult
  | some d => if d.isEmpty then .error .attributeError else parseData d
  | none => .error .attributeError

/-- Continuation of NE.get_segment_data on the looked-up segment entry:
an out-of-range index raises IndexError, a None entry AttributeError,
and otherwise the retained buffer is re-sliced at the shifted segment
offset for the segment length. -/
def segDataStage (r : NEResult) : Option (Option IMAGE_SEGMENT_HEADER) → Except ParseErr Bytes
  | none => .error .indexError
  | some none => .error .attributeError
  | some (some seg) =>
    .ok (pySlice r.data (seg.Offset <<< r.NE_HEADER.Aligment)
      ((seg.Offset <<< r.NE_HEADER.Aligment) + seg.Length))

/-- NE.get_segment_data (lines 193 to 195). -/
def get_segment_data (r : NEResult) (seg_nr : Nat) : Except ParseErr Bytes :=
  segDataStage r (r.segmentTable[seg_nr]?)

/-- A well-formed 64-byte DOS stub with magic MZ and e_lfanew 64. -/
def dosStub : Bytes := [77, 90] ++ List.replicate 58 0 ++ [64, 0, 0, 0]

/-- A complete well-formed NE file: one module-table entry (one
imported name and one module reference), one segment at byte offset 144
(alignment shift 0) of length 4 with the RELOC_DATA flag, relocation
count 1 and one relocation record. -/
def cbufG : Bytes :=
  dosStub ++ [78, 69] ++ List.replicate 26 0 ++ [1, 0, 1, 0, 0, 0, 64, 0] ++
  List.replicate 4 0 ++ [72, 0, 74, 0] ++ List.replicate 20 0 ++
  [144, 0, 4, 0, 0, 1, 0, 0] ++ [3, 0] ++ [0] ++ [2, 65, 66] ++ [0, 0] ++
  [1, 2, 3, 4] ++ [1, 0] ++ [2, 3, 5, 0, 7, 0, 9, 0]

/-- The NE header that decodes from cbufG. -/
def neHdrG : IMAGE_NE_HEADER :=
  { Signature := 17742, LinkerVersion := 0, LinkerRevision := 0, EntryTableOffset := 0,
    EntryTableSize := 0, FileLoadCRC := 0, ProgramFlags := 0, ApplicationFlags := 0,
    AutoDataSegmentIndex := 0, InitialLocalHeapSize := 0, InitialStackSize := 0,
    InitialIP := 0, InitialCS := 0, InitialSP := 0, InitialSS := 0,
    SegmentTableEntryCount := 1, ModuleTableEntryCount := 1, NonresidentNameTableSize := 0,
    SegmentTableOffset := 64, ResourceTableOffset := 0, ResidentNameTableOffset := 0,
    ModuleReferenceTableOffset := 72, ImportTableOffset := 74, NonResidentTableOffset := 0,
    MovableEntryPointCount := 0, Aligment := 0, ReservedSegmentCount := 0, TargetOS := 0,
    MiscFlags := 0, FastLoadOffset := 0, FastLoadSize := 0, Reserved := 0,
    WindowsRevision := 0, WindowsVersion := 0 }

/-- The DOS header that decodes from dosStub-based buffers. -/
def dosHdrStd : IMAGE_DOS_HEADER :=
  { e_magic := 23117, e_cblp := 0, e_cp := 0, e_crlc := 0, e_cparhdr := 0, e_minalloc := 0,
    e_maxalloc := 0, e_ss := 0, e_sp := 0, e_csum := 0, e_ip := 0, e_cs := 0, e_lfarlc := 0,
    e_ovno := 0, e_res := List.replicate 8 0, e_oemid := 0, e_oeminfo := 0,
    e_res2 := List.replicate 20 0, e_lfanew := 64 }

/-- The decoded model of cbufG. -/
def goodRes : NEResult :=
  { DOS_HEADER := dosHdrStd, NE_HEADER := neHdrG,
    imported_name_table := [[65, 66]], module_reference_table := [3],
    segmentTable := [some { Offset := 144, Length := 4, Flags := 256, MinAllocSize := 0 }],
    relocData := [some [some (IMAGE_RELOC_DATA.mk 2 3 5 7 9)]],
    data := cbufG }

/-- A parseable file whose single segment has the RELOC_DATA flag, a
readable relocation count of 1, but not 8 further bytes for the
relocation record itself, which therefore decodes to None. -/
def cbuf1 : Bytes :=
  dosStub ++ [78, 69] ++ List.replicate 26 0 ++ [1, 0, 0, 0, 0, 0, 64, 0] ++
  List.replicate 28 0 ++ [0, 0, 136, 0, 0, 1, 0, 0] ++ [1, 0]

/-- A file whose module-reference-table offset 0xFFFF leaves the
2-byte read far past the end of the 131-byte buffer. -/
def cbuf2 : Bytes :=
  dosStub ++ [78, 69] ++ List.replicate 26 0 ++ [0, 0, 1, 0, 0, 0, 0, 0] ++
  List.replicate 4 0 ++ [255, 255, 64, 0] ++ List.replicate 20 0 ++ [0, 1, 65]

/-- A bare 64-byte stub whose e_lfanew is 100, past the end. -/
def cbuf3 : Bytes := [77, 90] ++ List.replicate 58 0 ++ [100, 0, 0, 0]

/-- The DOS header that decodes from cbuf3. -/
def dosHdr3 : IMAGE_DOS_HEADER :=
  { e_magic := 23117, e_cblp := 0, e_cp := 0, e_crlc := 0, e_cparhdr := 0, e_minalloc := 0,
    e_maxalloc := 0, e_ss := 0, e_sp := 0, e_csum := 0, e_ip := 0, e_cs := 0, e_lfarlc := 0,
    e_ovno := 0, e_res := List.replicate 8 0, e_oemid := 0, e_oeminfo := 0,
    e_res2 := List.replicate 20 0, e_lfanew := 100 }

/-- A parseable 136-byte file whose single segment has no flags and
claims length 200, reaching far past the end of the buffer. -/
def cbuf4 : Bytes :=
  dosStub ++ [78, 69] ++ List.replicate 26 0 ++ [1, 0, 0, 0, 0, 0, 64, 0] ++
  List.replicate 28 0 ++ [0, 0, 200, 0, 0, 0, 0, 0]

theorem pySlice_length (d : Bytes) (a b : Nat) :
    (pySlice d a b).length = min (b - a) (d.length - a) := by
  simp [pySlice]

theorem byteAt_lt (d : Bytes) (hb : ∀ b ∈ d, b < 256) (i : Nat) (hi : i < d.length) :
    byteAt d i < 256 := by
  induction d generalizing i with
  | nil => simp at hi
  | cons x t ih =>
    cases i with
    | zero => exact hb x (List.mem_cons_self x t)
    | succ j =>
      exact ih (fun y hy => hb y (List.mem_cons_of_mem x hy)) j (by simpa using hi)

theorem importCursor_shift (d : Bytes) (off : Nat) :
    ∀ j, importCursor d (off + byteAt d off + 1) j = importCursor d off (j + 1) := by
  intro j
  induction j with
  | zero => rfl
  | succ j ih => simp only [importCursor, ih]

theorem parseImportedNames_ok (d : Bytes) :
    ∀ (n off : Nat) (tbl : List Bytes) (fin : Nat),
      parseImportedNames d off n = .ok (tbl, fin) →
      tbl.length = n ∧ fin = importCursor d off n ∧
      ∀ j, j < n →
        importCursor d off j + 1 + byteAt d (importCursor d off j) ≤ d.length ∧
        tbl[j]? = some (pySlice d (importCursor d off j + 1)
          (importCursor d off j + 1 + byteAt d (importCursor d off j))) := by
  intro n
  induction n with
  | zero =>
    intro off tbl fin h
    simp only [parseImportedNames] at h
    injection h with h
    injection h with h1 h2
    subst h1
    subst h2
    exact ⟨rfl, rfl, fun j hj => absurd hj (Nat.not_lt_zero j)⟩
  | succ n ih =>
    intro off tbl fin h
    simp only [parseImportedNames] at h
    split at h
    · rename_i hoff
      split at h
      · rename_i hbound
        split at h
        · rename_i tbl2 fin2 heq
          injection h with h
          injection h with h1 h2
          subst h1
          subst h2
          obtain ⟨ihl, ihf, ihj⟩ := ih (off + byteAt d off + 1) tbl2 fin2 heq
          refine ⟨by simp [ihl], ?_, ?_⟩
          · rw [ihf, importCursor_shift]
          · intro j hj
            cases j with
            | zero => exact ⟨hbound, by simp [importCursor]⟩
            | succ j2 =>
              have hj2 : j2 < n := by omega
              obtain ⟨hb2, hg2⟩ := ihj j2 hj2
              rw [importCursor_shift] at hb2 hg2
              exact ⟨hb2, by simpa using hg2⟩
        · exact absurd h (by simp)
      · exact absurd h (by simp)
    · exact absurd h (by simp)

theorem parseRelocTable_length (d : Bytes) (o k : Nat) :
    (parseRelocTable d o k).length = k := by
  simp [parseRelocTable]

theorem parseRelocTable_get (d : Bytes) (o k j : Nat) (hj : j < k) :
    (parseRelocTable d o k)[j]? = some (unpackRelocData (d.drop (o + 2 + 8 * j))) := by
  simp [parseRelocTable, List.getElem?_map, List.getElem?_range, hj]


theorem parseRelocData_ok (d : Bytes) (a : Nat) :
    ∀ (segs : List (Option IMAGE_SEGMENT_HEADER))
      (rd : List (Option (List (Option IMAGE_RELOC_DATA)))),
      parseRelocData d a segs = .ok rd →
      rd.length = segs.length ∧
      ∀ (i : Nat) (seg : IMAGE_SEGMENT_HEADER), segs[i]? = some (some seg) →
        (seg.Flags &&& NE_SEGFLAGS_RELOC_DATA = 0 → rd[i]? = some none) ∧
        (seg.Flags &&& NE_SEGFLAGS_RELOC_DATA ≠ 0 →
          (seg.Offset <<< a) + seg.Length + 2 ≤ d.length ∧
          rd[i]? = some (some (parseRelocTable d ((seg.Offset <<< a) + seg.Length)
            (readLE d ((seg.Offset <<< a) + seg.Length) 2)))) := by
  intro segs
  induction segs with
  | nil =>
    intro rd h
    simp only [parseRelocData] at h
    injection h with h
    subst h
    refine ⟨rfl, ?_⟩
    intro i seg hseg
    simp at hseg
  | cons hd rest ih =>
    intro rd h
    cases hd with
    | none => simp only [parseRelocData] at h; exact absurd h (by simp)
    | some seg0 =>
      simp only [parseRelocData] at h
      split at h
      · rename_i hflag
        split at h
        · rename_i hlen
          cases hrec : parseRelocData d a rest with
          | error e => rw [hrec] at h; simp only [Except.map] at h; exact absurd h (by simp)
          | ok tl =>
            rw [hrec] at h
            simp only [Except.map] at h
            injection h with h
            subst h
            obtain ⟨ihl, ihall⟩ := ih tl hrec
            have hbound : (seg0.Offset <<< a) + seg0.Length + 2 ≤ d.length := by
              rw [pySlice_length] at hlen
              omega
            refine ⟨by simp [ihl], ?_⟩
            intro i seg hseg
            cases i with
            | zero =>
              simp only [List.getElem?_cons_zero, Option.some.injEq] at hseg
              subst hseg
              refine ⟨fun hz => absurd hz hflag, fun _ => ⟨hbound, by simp⟩⟩
            | succ i2 =>
              simp only [List.getElem?_cons_succ] at hseg ⊢
              exact ihall i2 seg hseg
        · exact absurd h (by simp)
      · rename_i hflag
        cases hrec : parseRelocData d a rest with
        | error e => rw [hrec] at h; simp only [Except.map] at h; exact absurd h (by simp)
        | ok tl =>
          rw [hrec] at h
          simp only [Except.map] at h
          injection h with h
          subst h
          obtain ⟨ihl, ihall⟩ := ih tl hrec
          have hz : seg0.Flags &&& NE_SEGFLAGS_RELOC_DATA = 0 := not_not.mp hflag
          refine ⟨by simp [ihl], ?_⟩
          intro i seg hseg
          cases i with
          | zero =>
            simp only [List.getElem?_cons_zero, Option.some.injEq] at hseg
            subst hseg
            exact ⟨fun _ => by simp, fun hne => absurd hz hne⟩
          | succ i2 =>
            simp only [List.getElem?_cons_succ] at hseg ⊢
            exact ihall i2 seg hseg

theorem NE_parse_ok_data {d : Bytes} {r : NEResult} (h : NE_parse (some d) = .ok r) :
    parseData d = .ok r := by
  simp only [NE_parse] at h
  split at h
  · exact absurd h (by simp)
  · exact h

theorem parseData_ok_inv (d : Bytes) (r : NEResult) (h : parseData d = .ok r) :
    unpackDosHeader d = some r.DOS_HEADER ∧
    r.DOS_HEADER.e_magic = IMAGE_DOS_SIGNATURE ∧
    unpackNeHeader (d.drop r.DOS_HEADER.e_lfanew) = some r.NE_HEADER ∧
    parseImportedNames d (r.NE_HEADER.ImportTableOffset + r.DOS_HEADER.e_lfanew + 1)
        r.NE_HEADER.ModuleTableEntryCount =
      .ok (r.imported_name_table,
        importCursor d (r.NE_HEADER.ImportTableOffset + r.DOS_HEADER.e_lfanew + 1)
          r.NE_HEADER.ModuleTableEntryCount) ∧
    parseModuleRefTable d (r.NE_HEADER.ModuleReferenceTableOffset + r.DOS_HEADER.e_lfanew)
        r.NE_HEADER.ModuleTableEntryCount = .ok r.module_reference_table ∧
    r.segmentTable = parseSegmentTable d (r.NE_HEADER.SegmentTableOffset + r.DOS_HEADER.e_lfanew)
      r.NE_HEADER.SegmentTableEntryCount ∧
    parseRelocData d r.NE_HEADER.Aligment r.segmentTable = .ok r.relocData ∧
    r.data = d := by
  simp only [parseData] at h
  cases hdos : unpackDosHeader d with
  | none => rw [hdos] at h; simp only [dosStage] at h; exact absurd h (by simp)
  | some dos =>
    rw [hdos] at h
    simp only [dosStage] at h
    split at h
    case isFalse => exact absurd h (by simp)
    case isTrue hm =>
      simp only [afterDosHeader] at h
      cases hsig : unpackNeSig (d.drop dos.e_lfanew) with
      | none => rw [hsig] at h; simp only [neSigStage] at h; exact absurd h (by simp)
      | some sig =>
        rw [hsig] at h
        simp only [neSigStage] at h
        split at h
        · exact absurd h (by simp)
        · split at h
          case isFalse => exact absurd h (by simp)
          case isTrue =>
            simp only [afterNeSig] at h
            cases hne : unpackNeHeader (d.drop dos.e_lfanew) with
            | none => rw [hne] at h; simp only [neHeaderStage] at h; exact absurd h (by simp)
            | some ne =>
              rw [hne] at h
              simp only [neHeaderStage, afterNeHeader] at h
              cases himp : parseImportedNames d (ne.ImportTableOffset + dos.e_lfanew + 1)
                  ne.ModuleTableEntryCount with
              | error e => rw [himp] at h; simp only [afterImports] at h; exact absurd h (by simp)
              | ok p =>
                obtain ⟨intbl, fin⟩ := p
                rw [himp] at h
                simp only [afterImports] at h
                cases hmrt : parseModuleRefTable d (ne.ModuleReferenceTableOffset + dos.e_lfanew)
                    ne.ModuleTableEntryCount with
                | error e => rw [hmrt] at h; simp only [afterModRef] at h; exact absurd h (by simp)
                | ok mrt =>
                  rw [hmrt] at h
                  simp only [afterModRef] at h
                  cases hrd : parseRelocData d ne.Aligment
                      (parseSegmentTable d (ne.SegmentTableOffset + dos.e_lfanew)
                        ne.SegmentTableEntryCount) with
                  | error e => rw [hrd] at h; simp only [Except.map] at h; exact absurd h (by simp)
                  | ok rd =>
                    rw [hrd] at h
                    simp only [Except.map] at h
                    injection h with h
                    subst h
                    have hfin := (parseImportedNames_ok d ne.ModuleTableEntryCount
                      (ne.ImportTableOffset + dos.e_lfanew + 1) intbl fin himp).2.1
                    subst hfin
                    exact ⟨rfl, hm, hne, himp, hmrt, rfl, hrd, rfl⟩

/-- C1 (amended): for every successfully parsed buffer, relocData is
index-aligned with segmentTable; if segment i lacks the 0x0100
RELOC_DATA flag bit its slot is absent (None); if the bit is set, the
parser reads the 2-byte little-endian count k at
(Offset <<< Aligment) + Length, which must lie within the buffer, and
the slot holds a table of exactly k entries, entry j being the 8-byte
record decoded 2 + 8 * j bytes past the count field when 8 bytes are
available there and None otherwise. -/
theorem reloc_table_structure (d : Bytes) (r : NEResult) (h : NE_parse (some d) = .ok r) :
    r.relocData.length = r.segmentTable.length ∧
    ∀ (i : Nat) (seg : IMAGE_SEGMENT_HEADER), r.segmentTable[i]? = some (some seg) →
      (seg.Flags &&& NE_SEGFLAGS_RELOC_DATA = 0 → r.relocData[i]? = some none) ∧
      (seg.Flags &&& NE_SEGFLAGS_RELOC_DATA ≠ 0 →
        (seg.Offset <<< r.NE_HEADER.Aligment) + seg.Length + 2 ≤ d.length ∧
        r.relocData[i]? = some (some (parseRelocTable d
          ((seg.Offset <<< r.NE_HEADER.Aligment) + seg.Length)
          (readLE d ((seg.Offset <<< r.NE_HEADER.Aligment) + seg.Length) 2))) ∧
        (parseRelocTable d ((seg.Offset <<< r.NE_HEADER.Aligment) + seg.Length)
          (readLE d ((seg.Offset <<< r.NE_HEADER.Aligment) + seg.Length) 2)).length =
          readLE d ((seg.Offset <<< r.NE_HEADER.Aligment) + seg.Length) 2 ∧
        ∀ j, j < readLE d ((seg.Offset <<< r.NE_HEADER.Aligment) + seg.Length) 2 →
          (parseRelocTable d ((seg.Offset <<< r.NE_HEADER.Aligment) + seg.Length)
            (readLE d ((seg.Offset <<< r.NE_HEADER.Aligment) + seg.Length) 2))[j]? =
            some (unpackRelocData (d.drop
              ((seg.Offset <<< r.NE_HEADER.Aligment) + seg.Length + 2 + 8 * j)))) := by
  obtain ⟨-, -, -, -, -, -, hrd, -⟩ := parseData_ok_inv d r (NE_parse_ok_data h)
  obtain ⟨hlen, hall⟩ := parseRelocData_ok d r.NE_HEADER.Aligment r.segmentTable r.relocData hrd
  refine ⟨hlen, ?_⟩
  intro i seg hseg
  obtain ⟨h0, h1⟩ := hall i seg hseg
  refine ⟨h0, fun hne => ?_⟩
  obtain ⟨hb, hslot⟩ := h1 hne
  exact ⟨hb, hslot, parseRelocTable_length d _ _, fun j hj => parseRelocTable_get d _ _ j hj⟩

/-- C1 counterexample to the claim as stated: cbuf1 parses successfully,
its single segment carries the RELOC_DATA flag and the count field reads
1, yet the single slot of the relocation table holds None rather than a
decoded 8-byte RelocationEntry record. -/
theorem reloc_table_undecoded_entry :
    (NE_parse (some cbuf1)).map (fun r => (r.segmentTable, r.relocData)) =
      .ok ([some (IMAGE_SEGMENT_HEADER.mk 0 136 256 0)], [some [none]]) ∧
    readLE cbuf1 136 2 = 1 :=
  ⟨rfl, rfl⟩

/-- C1 witness: the amended theorem applied to the complete file cbufG
at segment index 0. -/
theorem reloc_table_structure_witness :
    goodRes.relocData.length = goodRes.segmentTable.length ∧
    goodRes.relocData[0]? = some (some (parseRelocTable cbufG 148 1)) := by
  have h := reloc_table_structure cbufG goodRes (by rfl)
  exact ⟨h.1, (((h.2 0 (IMAGE_SEGMENT_HEADER.mk 144 4 256 0) (by rfl)).2 (by decide)).2).1⟩

/-- C2 (amended): no read is pre-checked against the buffer length and
no OutOfBounds failure exists; slicing clamps, and a computed offset
plus length that exceeds the buffer length surfaces as struct.error for
the imported-name, module-reference-table and relocation-count reads,
and as a silently absent (None) record for a segment-table entry. -/
theorem oob_reads_behavior :
    (∀ (d : Bytes) (off n : Nat), d.length < off + 1 + byteAt d off →
      parseImportedNames d off (n + 1) = .error .structError) ∧
    (∀ (d : Bytes) (off count : Nat), 0 < count → d.length < off + 2 * count →
      parseModuleRefTable d off count = .error .structError) ∧
    (∀ (d : Bytes) (a : Nat) (seg : IMAGE_SEGMENT_HEADER)
      (rest : List (Option IMAGE_SEGMENT_HEADER)),
      seg.Flags &&& NE_SEGFLAGS_RELOC_DATA ≠ 0 →
      d.length < (seg.Offset <<< a) + seg.Length + 2 →
      parseRelocData d a (some seg :: rest) = .error .structError) ∧
    (∀ (d : Bytes) (off : Nat), d.length < off + 8 →
      unpackSegmentHeader (d.drop off) = none) := by
  refine ⟨?_, ?_, ?_, ?_⟩
  · intro d off n h
    simp only [parseImportedNames]
    split
    · rw [if_neg (by omega)]
    · rfl
  · intro d off count hc h
    have hcond : ¬((pySlice d off (off + 2 * count)).length = 2 * count) := by
      rw [pySlice_length]
      omega
    simp only [parseModuleRefTable]
    rw [if_neg hcond]
  · intro d a seg rest hflag h
    have hcond : ¬((pySlice d ((seg.Offset <<< a) + seg.Length)
        ((seg.Offset <<< a) + seg.Length + 2)).length = 2) := by
      rw [pySlice_length]
      omega
    simp only [parseRelocData]
    rw [if_pos hflag, if_neg hcond]
  · intro d off h
    have hcond : (d.drop off).length < 8 := by
      rw [List.length_drop]
      omega
    simp only [unpackSegmentHeader]
    rw [if_pos hcond]

/-- C2 counterexample to the claim as stated: in cbuf2 the
module-reference table lies at offset 65599 of a 131-byte buffer, and
the parse fails with struct.error, a different exception, not with an
OutOfBounds failure. -/
theorem oob_modref_struct_error :
    NE_parse (some cbuf2) = .error .structError ∧ cbuf2.length = 131 :=
  ⟨rfl, rfl⟩

/-- C2 witness: each conjunct of the amended theorem applied at a
concrete out-of-range input. -/
theorem oob_reads_behavior_witness :
    parseImportedNames [5] 0 1 = .error .structError ∧
    parseModuleRefTable [] 0 1 = .error .structError ∧
    parseRelocData [] 0 [some (IMAGE_SEGMENT_HEADER.mk 0 0 256 0)] = .error .structError ∧
    unpackSegmentHeader (([] : Bytes).drop 0) = none :=
  ⟨oob_reads_behavior.1 [5] 0 0 (by decide),
   oob_reads_behavior.2.1 [] 0 1 (by decide) (by decide),
   oob_reads_behavior.2.2.1 [] 0 (IMAGE_SEGMENT_HEADER.mk 0 0 256 0) [] (by decide) (by decide),
   oob_reads_behavior.2.2.2 [] 0 (by decide)⟩

/-- C3 (amended): for every buffer with a well-formed 64-byte DOS stub
whose e_lfanew points at or past the end of the buffer, parsing fails
with the missing-NE-signature error (NE Signature not found), not an
OutOfBounds failure, and the clamped slice never reads outside the
buffer. -/
theorem lfanew_past_end_missing_sig (d : Bytes) (dos : IMAGE_DOS_HEADER)
    (hdos : unpackDosHeader d = some dos) (hm : dos.e_magic = IMAGE_DOS_SIGNATURE)
    (hpast : d.length ≤ dos.e_lfanew) :
    NE_parse (some d) = .error .neSignatureNotFound := by
  have h64 : ¬ d.length < 64 := by
    intro hc
    simp only [unpackDosHeader] at hdos
    rw [if_pos hc] at hdos
    exact Option.noConfusion hdos
  have hemp : d.isEmpty = false := by
    cases d with
    | nil => simp at h64
    | cons x t => rfl
  have hsig : unpackNeSig (d.drop dos.e_lfanew) = none := by
    have hlt : (d.drop dos.e_lfanew).length < 2 := by
      rw [List.length_drop]
      omega
    simp only [unpackNeSig]
    rw [if_pos hlt]
  have hstep : NE_parse (some d) = parseData d := by simp [NE_parse, hemp]
  rw [hstep]
  simp only [parseData, hdos, dosStage]
  rw [if_pos hm]
  simp only [afterDosHeader, hsig, neSigStage]

/-- C3 counterexample to the claim as stated: cbuf3 is a well-formed
64-byte stub whose e_lfanew is 100, past the end, and the parse fails
with the missing-NE-signature error, not an OutOfBounds failure. -/
theorem lfanew_past_end_not_oob :
    NE_parse (some cbuf3) = .error .neSignatureNotFound ∧
    readLE cbuf3 60 4 = 100 ∧ cbuf3.length = 64 :=
  ⟨rfl, rfl, rfl⟩

/-- C3 witness: the amended theorem applied to cbuf3. -/
theorem lfanew_past_end_missing_sig_witness :
    NE_parse (some cbuf3) = .error .neSignatureNotFound :=
  lfanew_past_end_missing_sig cbuf3 dosHdr3 (by rfl) (by rfl) (by decide)

/-- C4 (amended): for every successfully parsed file and segment index
i whose entry satisfies (Offset <<< Aligment) + Length within the
buffer, get_segment_data returns the slice of the original buffer
starting at Offset <<< Aligment whose length equals Length. -/
theorem segment_data_slice (d : Bytes) (r : NEResult) (i : Nat) (seg : IMAGE_SEGMENT_HEADER)
    (h : NE_parse (some d) = .ok r) (hseg : r.segmentTable[i]? = some (some seg))
    (hin : (seg.Offset <<< r.NE_HEADER.Aligment) + seg.Length ≤ d.length) :
    get_segment_data r i = .ok (pySlice d (seg.Offset <<< r.NE_HEADER.Aligment)
      ((seg.Offset <<< r.NE_HEADER.Aligment) + seg.Length)) ∧
    (pySlice d (seg.Offset <<< r.NE_HEADER.Aligment)
      ((seg.Offset <<< r.NE_HEADER.Aligment) + seg.Length)).length = seg.Length := by
  obtain ⟨-, -, -, -, -, -, -, hdata⟩ := parseData_ok_inv d r (NE_parse_ok_data h)
  constructor
  · simp only [get_segment_data, hseg, segDataStage, hdata]
  · rw [pySlice_length]
    omega

/-- C4 counterexample to the claim as stated: cbuf4 parses successfully,
its single segment claims Length 200, and get_segment_data returns a
truncated slice of only 136 bytes. -/
theorem segment_data_truncated :
    (NE_parse (some cbuf4)).map
        (fun r => ((get_segment_data r 0).map List.length, r.segmentTable)) =
      .ok (.ok 136, [some (IMAGE_SEGMENT_HEADER.mk 0 200 0 0)]) :=
  rfl

/-- C4 witness: the amended theorem applied to cbufG at segment 0. -/
theorem segment_data_slice_witness :
    get_segment_data goodRes 0 = .ok (pySlice cbufG 144 148) ∧
    (pySlice cbufG 144 148).length = 4 :=
  segment_data_slice cbufG goodRes 0 (IMAGE_SEGMENT_HEADER.mk 144 4 256 0)
    (by rfl) (by rfl) (by decide)

/-- C5: on every successful parse the three tables are read at their
header offset fields plus ne_headers_offset (the e_lfanew value): the
imported-name cursor starts at ImportTableOffset + e_lfanew + 1, the
module-reference table is read at ModuleReferenceTableOffset + e_lfanew
and the segment table at SegmentTableOffset + e_lfanew. -/
theorem table_offsets_relative (d : Bytes) (r : NEResult) (h : NE_parse (some d) = .ok r) :
    parseImportedNames d (r.NE_HEADER.ImportTableOffset + r.DOS_HEADER.e_lfanew + 1)
        r.NE_HEADER.ModuleTableEntryCount =
      .ok (r.imported_name_table,
        importCursor d (r.NE_HEADER.ImportTableOffset + r.DOS_HEADER.e_lfanew + 1)
          r.NE_HEADER.ModuleTableEntryCount) ∧
    parseModuleRefTable d (r.NE_HEADER.ModuleReferenceTableOffset + r.DOS_HEADER.e_lfanew)
        r.NE_HEADER.ModuleTableEntryCount = .ok r.module_reference_table ∧
    r.segmentTable = parseSegmentTable d
      (r.NE_HEADER.SegmentTableOffset + r.DOS_HEADER.e_lfanew)
      r.NE_HEADER.SegmentTableEntryCount := by
  obtain ⟨-, -, -, h4, h5, h6, -, -⟩ := parseData_ok_inv d r (NE_parse_ok_data h)
  exact ⟨h4, h5, h6⟩

/-- C5 witness: the theorem applied to cbufG, whose e_lfanew is 64 and
whose table offsets are 74, 72 and 64. -/
theorem table_offsets_relative_witness :
    parseImportedNames cbufG (74 + 64 + 1) 1 =
      .ok ([[65, 66]], importCursor cbufG (74 + 64 + 1) 1) ∧
    parseModuleRefTable cbufG (72 + 64) 1 = .ok [3] ∧
    goodRes.segmentTable = parseSegmentTable cbufG (64 + 64) 1 :=
  table_offsets_relative cbufG goodRes (by rfl)

/-- C6: on every successful parse the imported-name table has exactly
ModuleTableEntryCount entries; the cursor starts at
ImportTableOffset + e_lfanew + 1, each iteration reads one length byte
n and takes the following n bytes (all within the buffer) as the
payload, and the cursor advances by n + 1 as recorded by importCursor. -/
theorem imported_name_table_shape (d : Bytes) (r : NEResult) (h : NE_parse (some d) = .ok r) :
    r.imported_name_table.length = r.NE_HEADER.ModuleTableEntryCount ∧
    ∀ j, j < r.NE_HEADER.ModuleTableEntryCount →
      importCursor d (r.NE_HEADER.ImportTableOffset + r.DOS_HEADER.e_lfanew + 1) j + 1 +
        byteAt d (importCursor d (r.NE_HEADER.ImportTableOffset + r.DOS_HEADER.e_lfanew + 1) j) ≤
        d.length ∧
      r.imported_name_table[j]? = some (pySlice d
        (importCursor d (r.NE_HEADER.ImportTableOffset + r.DOS_HEADER.e_lfanew + 1) j + 1)
        (importCursor d (r.NE_HEADER.ImportTableOffset + r.DOS_HEADER.e_lfanew + 1) j + 1 +
          byteAt d (importCursor d (r.NE_HEADER.ImportTableOffset + r.DOS_HEADER.e_lfanew + 1) j))) := by
  obtain ⟨-, -, -, h4, -, -, -, -⟩ := parseData_ok_inv d r (NE_parse_ok_data h)
  obtain ⟨hl, -, hj⟩ := parseImportedNames_ok d r.NE_HEADER.ModuleTableEntryCount
    (r.NE_HEADER.ImportTableOffset + r.DOS_HEADER.e_lfanew + 1) r.imported_name_table _ h4
  exact ⟨hl, hj⟩

/-- C6 witness: the theorem applied to cbufG, whose single imported
name is the 2-byte string at cursor 139. -/
theorem imported_name_table_shape_witness :
    goodRes.imported_name_table.length = 1 ∧
    (importCursor cbufG 139 0 + 1 + byteAt cbufG (importCursor cbufG 139 0) ≤ cbufG.length ∧
      goodRes.imported_name_table[0]? = some (pySlice cbufG (importCursor cbufG 139 0 + 1)
        (importCursor cbufG 139 0 + 1 + byteAt cbufG (importCursor cbufG 139 0)))) := by
  have h := imported_name_table_shape cbufG goodRes (by rfl)
  exact ⟨h.1, h.2 0 (by decide)⟩

/-- C7 (amended): every nonempty buffer of bytes that is shorter than
64 bytes, and every nonempty buffer whose first two bytes are not
0x4D 0x5A, fails with the single DOS-header NEFormatError before any
table parser runs; the empty buffer instead raises AttributeError. -/
theorem short_or_bad_magic_fails (d : Bytes) (hne : d ≠ [])
    (hb : ∀ b ∈ d, b < 256)
    (hcase : d.length < 64 ∨ byteAt d 0 ≠ 0x4D ∨ byteAt d 1 ≠ 0x5A) :
    NE_parse (some d) = .error .dosMagicNotFound := by
  have hemp : d.isEmpty = false := by
    cases d with
    | nil => exact absurd rfl hne
    | cons x t => rfl
  have hstep : NE_parse (some d) = parseData d := by simp [NE_parse, hemp]
  rw [hstep]
  by_cases h64 : d.length < 64
  · have hdos : unpackDosHeader d = none := by
      simp only [unpackDosHeader]
      rw [if_pos h64]
    simp only [parseData, hdos, dosStage]
  · have hmagic : readLE d 0 2 ≠ IMAGE_DOS_SIGNATURE := by
      have h0 : byteAt d 0 < 256 := byteAt_lt d hb 0 (by omega)
      have hr : readLE d 0 2 = byteAt d 0 + 256 * (byteAt d 1 + 256 * 0) := rfl
      rw [hr]
      simp only [IMAGE_DOS_SIGNATURE]
      rcases hcase with hc | hc | hc
      · omega
      · omega
      · omega
    simp only [parseData, unpackDosHeader]
    rw [if_neg h64]
    simp only [dosStage]
    rw [if_neg hmagic]

/-- C7 counterexample to the claim as stated: the empty buffer is
shorter than 64 bytes yet fails with AttributeError, not with the
DOS-header failure. -/
theorem empty_buffer_attribute_error :
    NE_parse (some []) = .error .attributeError ∧
    ([] : Bytes).length < 64 ∧
    ParseErr.attributeError ≠ ParseErr.dosMagicNotFound :=
  ⟨rfl, by decide, by decide⟩

/-- C7 witness: the amended theorem applied to the 1-byte buffer. -/
theorem short_or_bad_magic_fails_witness :
    NE_parse (some [0]) = .error .dosMagicNotFound :=
  short_or_bad_magic_fails [0] (by decide) (by decide) (Or.inl (by decide))

/-- C9: parsing is deterministic: two parses of the same data argument
that both succeed produce equal decoded results, field for field. -/
theorem parse_deterministic (dat : Option Bytes) (r1 r2 : NEResult)
    (h1 : NE_parse dat = .ok r1) (h2 : NE_parse dat = .ok r2) : r1 = r2 := by
  rw [h1] at h2
  exact Except.ok.inj h2

/-- C9 witness: the theorem applied to two parses of cbufG. -/
theorem parse_deterministic_witness : goodRes = goodRes :=
  parse_deterministic (some cbufG) goodRes goodRes rfl rfl

/-- C10: constructing NE with name None and data None or empty raises
AttributeError from the DOS-header decode, which is none of the
documented NEFormatError kinds nor struct.error; a nonempty data
argument is a precondition of the constructor. -/
theorem empty_data_precondition :
    NE_parse none = .error .attributeError ∧
    NE_parse (some []) = .error .attributeError ∧
    ParseErr.attributeError ≠ ParseErr.dosMagicNotFound ∧
    ParseErr.attributeError ≠ ParseErr.neSignatureNotFound ∧
    ParseErr.attributeError ≠ ParseErr.invalidNeSignature ∧
    ParseErr.attributeError ≠ ParseErr.neHeaderMissing ∧
    ParseErr.attributeError ≠ ParseErr.structError :=
  ⟨rfl, rfl, by decide, by decide, by decide, by decide, by decide⟩
